import Mathlib

/-!
Verification of the infra-tools DNS health-check runner (src/main.rs).

The development shallowly embeds the Rust program: pure functions become Lean
functions; the DNS transport and the GitHub issue-tracker API become explicit
oracles (an attempt-indexed query function, and a record of fixed API
responses); `Result<T, E>` becomes `Except E T`; a Rust panic (out-of-bounds
slice indexing) becomes an explicit constructor of the outcome type.
-/

namespace InfraTools

/-- IPv4 address, four octets. Embeds `std::net::Ipv4Addr` up to equality,
which is all the program uses besides display. -/
structure Ipv4Addr where
  a : Nat
  b : Nat
  c : Nat
  d : Nat
deriving DecidableEq, Repr

/-- Embeds `struct NameServer { address: Ipv4Addr, name: Name }`.
A `trust_dns` `Name` is embedded as its display string (e.g. "ns1.rhiyo.com.");
the program only compares names and interpolates them into strings. -/
structure NameServer where
  address : Ipv4Addr
  name : String
deriving DecidableEq, Repr

/-- Embeds `struct Check<'a>`; the borrowed references are flattened to
values (the Rust values are immutable for the whole run). -/
structure Check where
  name_server : NameServer
  record_to_request : String
  expected_ip : Ipv4Addr
deriving DecidableEq, Repr

/-- Embeds `const ISSUE_TITLE: &str = "Outage Report";`. -/
def ISSUE_TITLE : String := "Outage Report"

/-- Embeds `get_name_servers`: the hardcoded two-element inventory. -/
def get_name_servers : List NameServer :=
  [ { address := ⟨173, 255, 245, 83⟩, name := "ns1.rhiyo.com." },
    { address := ⟨212, 71, 246, 209⟩, name := "ns2.rhiyo.com." } ]

/-- Embeds `get_checks`: the nested for loops pushing one `Check` per
(query source, target) pair become `bind` over the outer list of an inner
`map`, which produces the pushes in the same order. -/
def get_checks (name_servers : List NameServer) : List Check :=
  name_servers.flatMap (fun name_server =>
    name_servers.map (fun record_to_request =>
      { name_server := name_server
        record_to_request := record_to_request.name
        expected_ip := record_to_request.address }))

/-- Length of a `flatMap` whose blocks all have the same length `B`. -/
lemma length_flatMap_const {α β : Type} (g : α → List β) (B : Nat)
    (hB : ∀ x, (g x).length = B) (l : List α) :
    (l.flatMap g).length = l.length * B := by
  induction l with
  | nil => simp
  | cons x xs ih =>
      simp [List.flatMap_cons, List.length_append, hB x, ih, Nat.succ_mul,
        Nat.add_comm]

/-- Indexing into a `flatMap` whose blocks all have the same length `B`:
position `i * B + j` of the flattened list is position `j` of block `i`. -/
lemma getElem?_flatMap_const {α β : Type} (g : α → List β) (B : Nat)
    (hB : ∀ x, (g x).length = B) (l : List α) (i j : Nat) (hj : j < B) :
    ∀ hi : i < l.length,
      (l.flatMap g)[i * B + j]? = (g (l.get ⟨i, hi⟩))[j]? := by
  induction l generalizing i with
  | nil => intro hi; exact absurd hi (by simp)
  | cons x xs ih =>
      intro hi
      cases i with
      | zero =>
          simp only [List.flatMap_cons, Nat.zero_mul, Nat.zero_add]
          rw [List.getElem?_append_left]
          · rfl
          · rw [hB x]; exact hj
      | succ i =>
          simp only [List.flatMap_cons]
          rw [List.getElem?_append_right]
          · have harith : (i + 1) * B + j - (g x).length = i * B + j := by
              rw [hB x]; ring_nf; omega
            rw [harith]
            exact ih i (by simpa using hi)
          · rw [hB x]
            calc B ≤ (i + 1) * B := by nlinarith
              _ ≤ (i + 1) * B + j := Nat.le_add_right _ _

/-- Embeds `format_check_results`: starts from the header string
"Automated outage report\n\n" and the for loop appends one line
"Server {name} resolving {record} {PASS|FAIL}\n" per (check, result) pair,
in order; the loop is a left fold over the list. The Rust `Result<(), ()>`
is embedded as `Except Unit Unit` and `result.is_ok()` as `Except.isOk`. -/
def format_check_results (checks : List (Check × Except Unit Unit)) : String :=
  checks.foldl
    (fun s cr =>
      s ++ ("Server " ++ cr.1.name_server.name ++ " resolving " ++
        cr.1.record_to_request ++ " " ++
        (if cr.2.isOk then "PASS" else "FAIL") ++ "\n"))
    "Automated outage report\n\n"

/-- Folding string append from an initial string prepends that string. -/
lemma string_foldl_append (L : List String) :
    ∀ init : String,
      L.foldl (fun r s => r ++ s) init = init ++ L.foldl (fun r s => r ++ s) "" := by
  induction L with
  | nil => intro init; simp
  | cons a L ih =>
      intro init
      simp only [List.foldl]
      rw [ih (init ++ a), ih ("" ++ a), String.empty_append, String.append_assoc]

/-- String.join of a cons peels off the head. -/
lemma string_join_cons (a : String) (L : List String) :
    String.join (a :: L) = a ++ String.join L := by
  simp only [String.join, List.foldl]
  rw [string_foldl_append L ("" ++ a), String.empty_append]

/-- Left fold that appends `f x` per element equals the initial string
followed by the join of the per-element strings. -/
lemma foldl_append_join {α : Type} (f : α → String) (L : List α) :
    ∀ init : String,
      L.foldl (fun s x => s ++ f x) init = init ++ String.join (L.map f) := by
  induction L with
  | nil => intro init; simp [String.join]
  | cons a L ih =>
      intro init
      simp only [List.foldl, List.map]
      rw [ih (init ++ f a), string_join_cons, String.append_assoc]

/-- C1: `get_checks` on an inventory of N name servers produces exactly N×N
checks in nested iteration order: the check at outer position i, inner
position j (flat index i·N + j) queries server i for server j's name and
expects server j's address; every flat index below N² is populated (so
self-checks are present and nothing is filtered or deduplicated). -/
theorem get_checks_full_matrix (ns : List NameServer) :
    (get_checks ns).length = ns.length * ns.length ∧
    ∀ i j : Nat, ∀ hi : i < ns.length, ∀ hj : j < ns.length,
      (get_checks ns)[i * ns.length + j]? =
        some { name_server := ns.get ⟨i, hi⟩
               record_to_request := (ns.get ⟨j, hj⟩).name
               expected_ip := (ns.get ⟨j, hj⟩).address } := by
  constructor
  · exact length_flatMap_const _ ns.length (fun x => by simp) ns
  · intro i j hi hj
    rw [get_checks, getElem?_flatMap_const _ ns.length (fun x => by simp) ns i j hj hi]
    simp [List.getElem?_map, List.getElem?_eq_getElem hj, List.get_eq_getElem]

/-- Witness for C1 at the program's own two-server inventory: the check at
outer position 1, inner position 0 asks ns2 to resolve ns1's record. -/
theorem get_checks_full_matrix_witness :
    (get_checks get_name_servers)[1 * get_name_servers.length + 0]? =
      some { name_server := get_name_servers.get ⟨1, by decide⟩
             record_to_request := (get_name_servers.get ⟨0, by decide⟩).name
             expected_ip := (get_name_servers.get ⟨0, by decide⟩).address } :=
  (get_checks_full_matrix get_name_servers).2 1 0 (by decide) (by decide)

/-- C2: `format_check_results` is a pure function of the ordered result
sequence: it is the header line "Automated outage report", a blank line,
then one newline-terminated "Server {name} resolving {record} {PASS|FAIL}"
line per result in input order; and on the two-server matrix with ns1
passing and ns2 failing it yields the reference report byte for byte
(mirroring the repository's `tests::format`). -/
theorem format_check_results_report (checks : List (Check × Except Unit Unit)) :
    format_check_results checks =
      "Automated outage report\n\n" ++
        String.join (checks.map (fun cr =>
          "Server " ++ cr.1.name_server.name ++ " resolving " ++
            cr.1.record_to_request ++ " " ++
            (if cr.2.isOk then "PASS" else "FAIL") ++ "\n")) ∧
    format_check_results
        ((get_checks get_name_servers).map (fun check =>
          (check, if check.name_server.name == "ns2.rhiyo.com."
            then Except.error () else Except.ok ()))) =
      "Automated outage report\n\nServer ns1.rhiyo.com. resolving ns1.rhiyo.com. PASS\nServer ns1.rhiyo.com. resolving ns2.rhiyo.com. PASS\nServer ns2.rhiyo.com. resolving ns1.rhiyo.com. FAIL\nServer ns2.rhiyo.com. resolving ns2.rhiyo.com. FAIL\n" := by
  constructor
  · exact foldl_append_join _ checks _
  · rfl

/-- Embeds the `trust_dns` `RData` answer payload, restricted to what the
program distinguishes: an A record carrying an IPv4 address, or any other
record type (e.g. a CNAME carrying a name), which `perform_check` handles
uniformly in its final `else` branch. -/
inductive RData where
  | A (ip : Ipv4Addr)
  | CNAME (name : String)
deriving DecidableEq, Repr

/-- Embeds a `trust_dns` `Record`, reduced to the single accessor the
program uses (`rdata`). -/
structure Record where
  rdata : RData
deriving DecidableEq, Repr

/-- Embeds a `trust_dns` `DnsResponse`, reduced to the single accessor the
program uses (`answers`). -/
structure DnsResponse where
  answers : List Record
deriving DecidableEq, Repr

/-- Transport oracle: the outcome of the n-th `client.query` call issued
for one check, counted from 0. `none` embeds a transport/protocol `Err`,
`some r` a successful `DnsResponse`. The Rust client carries no state
across attempts, so one run is determined by this attempt-indexed
function. -/
def QueryOracle : Type := Nat → Option DnsResponse

/-- Embeds `perform_query_with_retries`: issue the query (this is attempt
number `attempt` of the run); the match returns a successful response
as-is, returns the error when the budget is 0, and otherwise recurses with
budget `retries - 1`. `Result<DnsResponse, ()>` is embedded as
`Option DnsResponse`. -/
def perform_query_with_retries (query : QueryOracle) (attempt retries : Nat) :
    Option DnsResponse :=
  match query attempt, retries with
  | some res, _ => some res
  | none, 0 => none
  | none, r + 1 => perform_query_with_retries query (attempt + 1) r

/-- Instrumentation (not a Rust function): how many `client.query` calls
`perform_query_with_retries query attempt retries` issues, by the same
recursion. -/
def queryAttempts (query : QueryOracle) (attempt retries : Nat) : Nat :=
  match query attempt, retries with
  | some _, _ => 1
  | none, 0 => 1
  | none, r + 1 => 1 + queryAttempts query (attempt + 1) r

/-- Outcome of one `perform_check` run. `pass` embeds `Ok(())`, `fail`
embeds `Err(())`, and `crash` embeds the Rust panic raised by the
out-of-bounds slice index `answers[0]` on an empty answer list. -/
inductive CheckRunResult where
  | pass
  | fail
  | crash
deriving DecidableEq, Repr

/-- Embeds `perform_check` against a transport oracle: query with the
hardcoded retry budget 2 (the `?` operator turns an exhausted budget into
`Err(())`, embedded as `.fail`); then read `answers[0]` — on an empty
answer list the Rust slice indexing panics, embedded as `.crash`; a first
answer that is an A record passes iff its address equals `expected_ip`;
any other first answer takes the final `else` branch and fails. -/
def perform_check (query : QueryOracle) (check : Check) : CheckRunResult :=
  let retries := 2
  match perform_query_with_retries query 0 retries with
  | none => .fail
  | some response =>
    match response.answers with
    | [] => .crash
    | record :: _ =>
      match record.rdata with
      | .A ip => if ip = check.expected_ip then .pass else .fail
      | _ => .fail

/-- Instrumentation: how many DNS queries one `perform_check` run issues;
`perform_query_with_retries` with budget 2 is the only query site in
`perform_check`. -/
def perform_check_attempts (query : QueryOracle) : Nat :=
  queryAttempts query 0 2

/-- When the transport fails on every attempt through the budget, the
retry loop returns the error and issues exactly `retries + 1` queries. -/
lemma retries_all_fail (query : QueryOracle) :
    ∀ r a : Nat, (∀ i, i ≤ r → query (a + i) = none) →
      perform_query_with_retries query a r = none ∧
        queryAttempts query a r = r + 1 := by
  intro r
  induction r with
  | zero =>
      intro a h
      have h0 : query a = none := by simpa using h 0 (Nat.le_refl 0)
      exact ⟨by simp [perform_query_with_retries, h0],
        by simp [queryAttempts, h0]⟩
  | succ r ih =>
      intro a h
      have h0 : query a = none := by simpa using h 0 (Nat.zero_le _)
      have hrec := ih (a + 1) (fun i hi => by
        have e : a + 1 + i = a + (i + 1) := by omega
        rw [e]; exact h (i + 1) (by omega))
      exact ⟨by simp [perform_query_with_retries, h0, hrec.1],
        by simp [queryAttempts, h0, hrec.2]; omega⟩

/-- When the transport fails on exactly the first `k ≤ retries` attempts
and then succeeds, the retry loop returns that response after exactly
`k + 1` queries. -/
lemma retries_first_success (query : QueryOracle) (resp : DnsResponse) :
    ∀ k r a : Nat, k ≤ r → (∀ i, i < k → query (a + i) = none) →
      query (a + k) = some resp →
      perform_query_with_retries query a r = some resp ∧
        queryAttempts query a r = k + 1 := by
  intro k
  induction k with
  | zero =>
      intro r a _ _ hsucc
      have h0 : query a = some resp := by simpa using hsucc
      exact ⟨by simp [perform_query_with_retries, h0],
        by simp [queryAttempts, h0]⟩
  | succ k ih =>
      intro r a hkr hfail hsucc
      have h0 : query a = none := by simpa using hfail 0 (Nat.succ_pos k)
      obtain ⟨r', rfl⟩ : ∃ r', r = r' + 1 := ⟨r - 1, by omega⟩
      have hrec := ih r' (a + 1) (by omega)
        (fun i hi => by
          have e : a + 1 + i = a + (i + 1) := by omega
          rw [e]; exact hfail (i + 1) (by omega))
        (by
          have e : a + 1 + k = a + (k + 1) := by omega
          rw [e]; exact hsucc)
      exact ⟨by simp [perform_query_with_retries, h0, hrec.1],
        by simp [queryAttempts, h0, hrec.2]; omega⟩

/-- The retry loop never issues more than `retries + 1` queries. -/
lemma queryAttempts_le (query : QueryOracle) :
    ∀ r a : Nat, queryAttempts query a r ≤ r + 1 := by
  intro r
  induction r with
  | zero =>
      intro a
      cases hq : query a <;> simp [queryAttempts, hq]
  | succ r ih =>
      intro a
      cases hq : query a
      · have := ih (a + 1)
        simp only [queryAttempts, hq]
        omega
      · simp [queryAttempts, hq]

/-- C9: the retry recursion is total — it is accepted by structural
recursion on the budget (each recursive call uses `retries - 1`), it stops
after a single query once the budget is 0 whatever the transport does, and
it issues at most `retries + 1` queries in every run. -/
theorem perform_query_with_retries_total (query : QueryOracle) (a r : Nat) :
    queryAttempts query a r ≤ r + 1 ∧ queryAttempts query a 0 = 1 := by
  refine ⟨queryAttempts_le query r a, ?_⟩
  cases hq : query a <;> simp [queryAttempts, hq]

/-- C4: with retry budget r, transport failure on every attempt yields
failure after exactly r + 1 total attempts; transport failure on exactly
k ≤ r attempts followed by success yields the successful response with
k + 1 total attempts (budget consumed, not exhausted); and with the
executor's hardcoded budget of 2, at most 3 queries are ever issued. -/
theorem perform_query_with_retries_budget (query : QueryOracle) (r : Nat) :
    ((∀ i, i ≤ r → query i = none) →
      perform_query_with_retries query 0 r = none ∧
        queryAttempts query 0 r = r + 1) ∧
    (∀ k resp, k ≤ r → (∀ i, i < k → query i = none) → query k = some resp →
      perform_query_with_retries query 0 r = some resp ∧
        queryAttempts query 0 r = k + 1) ∧
    perform_check_attempts query ≤ 3 := by
  refine ⟨?_, ?_, ?_⟩
  · intro h
    exact retries_all_fail query r 0 (fun i hi => by simpa using h i hi)
  · intro k resp hk hfail hsucc
    exact retries_first_success query resp k r 0 hk
      (fun i hi => by simpa using hfail i hi) (by simpa using hsucc)
  · exact queryAttempts_le query 2 0

/-- Witness for C4 at a concrete always-failing transport and budget 2:
failure is returned after exactly 3 attempts. -/
theorem perform_query_with_retries_budget_witness :
    perform_query_with_retries (fun _ => none) 0 2 = none ∧
      queryAttempts (fun _ => none) 0 2 = 2 + 1 :=
  (perform_query_with_retries_budget (fun _ => none) 2).1 (fun _ _ => rfl)

/-- C5: when the query first succeeds at attempt k within the budget and
the first answer record is an A record, `perform_check` passes exactly
when the answered address equals `expected_ip` and fails otherwise, and
exactly k + 1 queries are issued either way — an address mismatch is final
and never re-queried. -/
theorem perform_check_mismatch_final (query : QueryOracle) (check : Check)
    (k : Nat) (resp : DnsResponse) (ip : Ipv4Addr) (rest : List Record)
    (hk : k ≤ 2) (hfail : ∀ i, i < k → query i = none)
    (hsucc : query k = some resp)
    (hans : resp.answers = { rdata := .A ip } :: rest) :
    perform_check query check =
      (if ip = check.expected_ip then .pass else .fail) ∧
    perform_check_attempts query = k + 1 := by
  have h := retries_first_success query resp k 2 0 hk
    (fun i hi => by simpa using hfail i hi) (by simpa using hsucc)
  refine ⟨?_, h.2⟩
  simp [perform_check, h.1, hans]

/-- Witness for C5: a first-attempt answer of 1.2.3.4 against an expected
5.6.7.8 fails after exactly one query. -/
theorem perform_check_mismatch_final_witness :
    perform_check
        (fun _ => some { answers := [{ rdata := .A ⟨1, 2, 3, 4⟩ }] })
        { name_server := { address := ⟨9, 9, 9, 9⟩, name := "ns9.example." }
          record_to_request := "ns9.example."
          expected_ip := ⟨5, 6, 7, 8⟩ } =
      (if (⟨1, 2, 3, 4⟩ : Ipv4Addr) = ⟨5, 6, 7, 8⟩
        then CheckRunResult.pass else CheckRunResult.fail) ∧
    perform_check_attempts
        (fun _ => some { answers := [{ rdata := .A ⟨1, 2, 3, 4⟩ }] }) = 0 + 1 :=
  perform_check_mismatch_final _ _ 0 _ ⟨1, 2, 3, 4⟩ []
    (by omega) (fun i hi => absurd hi (Nat.not_lt_zero i)) rfl rfl

/-- C10: when the query first succeeds at attempt k within the budget and
the first answer record is not an A record (here: a CNAME), `perform_check`
fails after exactly k + 1 queries — the non-A answer is collapsed into the
same opaque failure as a mismatched address, with no retry. -/
theorem perform_check_non_a_first_answer (query : QueryOracle) (check : Check)
    (k : Nat) (resp : DnsResponse) (name : String) (rest : List Record)
    (hk : k ≤ 2) (hfail : ∀ i, i < k → query i = none)
    (hsucc : query k = some resp)
    (hans : resp.answers = { rdata := .CNAME name } :: rest) :
    perform_check query check = .fail ∧
    perform_check_attempts query = k + 1 := by
  have h := retries_first_success query resp k 2 0 hk
    (fun i hi => by simpa using hfail i hi) (by simpa using hsucc)
  refine ⟨?_, h.2⟩
  simp [perform_check, h.1, hans]

/-- Witness for C10: a first-attempt CNAME answer fails after exactly one
query. -/
theorem perform_check_non_a_first_answer_witness :
    perform_check
        (fun _ => some { answers := [{ rdata := .CNAME "alias.example." }] })
        { name_server := { address := ⟨9, 9, 9, 9⟩, name := "ns9.example." }
          record_to_request := "ns9.example."
          expected_ip := ⟨5, 6, 7, 8⟩ } = .fail ∧
    perform_check_attempts
        (fun _ => some { answers := [{ rdata := .CNAME "alias.example." }] }) =
      0 + 1 :=
  perform_check_non_a_first_answer _ _ 0 _ "alias.example." []
    (by omega) (fun i hi => absurd hi (Nat.not_lt_zero i)) rfl rfl

/-- C3 (behavior of the code at the failing input): a query that succeeds
on the first attempt with zero answer records drives `perform_check` into
the unguarded `answers[0]` slice index, i.e. a Rust panic (`.crash`) — not
the `Fail` outcome the specification requires. -/
theorem perform_check_empty_answers_crashes :
    perform_check (fun _ => some { answers := [] })
      { name_server := { address := ⟨173, 255, 245, 83⟩, name := "ns1.rhiyo.com." }
        record_to_request := "ns1.rhiyo.com."
        expected_ip := ⟨173, 255, 245, 83⟩ } = .crash := rfl

/-- Prefix test on character lists. -/
def listPrefixOf : List Char → List Char → Bool
  | [], _ => true
  | _ :: _, [] => false
  | a :: as, b :: bs => a == b && listPrefixOf as bs

/-- Substring test on character lists: does `pat` occur contiguously in
the list? -/
def listContainsSub (pat : List Char) : List Char → Bool
  | [] => listPrefixOf pat []
  | c :: rest => listPrefixOf pat (c :: rest) || listContainsSub pat rest

/-- Embeds Rust's `str::contains` with a string pattern (as used in
`issue.title.contains(ISSUE_TITLE)`): a case-sensitive contiguous
substring test. -/
def strContains (s pat : String) : Bool :=
  listContainsSub pat.data s.data

lemma listPrefixOf_iff (pat : List Char) :
    ∀ s : List Char, listPrefixOf pat s = true ↔ ∃ rest, s = pat ++ rest := by
  induction pat with
  | nil =>
      intro s
      simp only [listPrefixOf, List.nil_append, true_iff]
      exact ⟨s, rfl⟩
  | cons a as ih =>
      intro s
      cases s with
      | nil =>
          simp [listPrefixOf]
      | cons b bs =>
          constructor
          · intro h
            simp only [listPrefixOf, Bool.and_eq_true, beq_iff_eq] at h
            obtain ⟨hab, hpre⟩ := h
            obtain ⟨rest, hr⟩ := (ih bs).mp hpre
            exact ⟨rest, by simp [hab, hr]⟩
          · rintro ⟨rest, hr⟩
            simp only [List.cons_append] at hr
            injection hr with h1 h2
            simp only [listPrefixOf, Bool.and_eq_true, beq_iff_eq]
            exact ⟨h1.symm, (ih bs).mpr ⟨rest, h2⟩⟩

lemma listContainsSub_iff (pat : List Char) :
    ∀ s : List Char,
      listContainsSub pat s = true ↔ ∃ pre post, s = pre ++ (pat ++ post) := by
  intro s
  induction s with
  | nil =>
      rw [listContainsSub, listPrefixOf_iff]
      constructor
      · rintro ⟨rest, hr⟩
        obtain ⟨hpat, hrest⟩ := List.append_eq_nil.mp hr.symm
        exact ⟨[], [], by simp [hpat, hrest]⟩
      · rintro ⟨pre, post, hr⟩
        obtain ⟨hpre, hpp⟩ := List.append_eq_nil.mp hr.symm
        obtain ⟨hpat, hpost⟩ := List.append_eq_nil.mp hpp
        exact ⟨[], by simp [hpat]⟩
  | cons c rest ih =>
      rw [listContainsSub, Bool.or_eq_true, listPrefixOf_iff, ih]
      constructor
      · rintro (⟨r, hr⟩ | ⟨pre, post, hr⟩)
        · exact ⟨[], r, by simp [hr]⟩
        · exact ⟨c :: pre, post, by simp [hr]⟩
      · rintro ⟨pre, post, hr⟩
        cases pre with
        | nil => exact Or.inl ⟨post, by simpa using hr⟩
        | cons p ps =>
            right
            simp only [List.cons_append] at hr
            injection hr with h1 h2
            exact ⟨ps, post, h2⟩

/-- The embedded `str::contains` is exactly the case-sensitive substring
relation: it holds iff the string decomposes around the pattern. -/
lemma strContains_iff (s pat : String) :
    strContains s pat = true ↔ ∃ pre post : String, s = pre ++ (pat ++ post) := by
  rw [strContains, listContainsSub_iff]
  constructor
  · rintro ⟨pre, post, hr⟩
    refine ⟨⟨pre⟩, ⟨post⟩, String.ext ?_⟩
    simpa [String.data_append] using hr
  · rintro ⟨pre, post, hr⟩
    exact ⟨pre.data, post.data, by simp [hr, String.data_append]⟩

/-- Embeds the fields of a `hubcaps` `Issue` the program reads: its title
and its url. -/
structure Issue where
  title : String
  url : String
deriving DecidableEq, Repr

/-- Embeds `existing_issue.url.split("/").last().unwrap().parse().unwrap()`:
the issue number is parsed from the last "/"-separated component of the
issue URL. `splitOn` never returns an empty list, so `last().unwrap()`
cannot fail; `String.toNat!` embeds the `parse().unwrap()`. -/
def parse_issue_number (url : String) : Nat :=
  ((url.splitOn "/").getLast!).toNat!

/-- One call to the GitHub issue-tracker API, as the program issues them. -/
inductive TrackerCall where
  | listIssues
  | createComment (issue_number : Nat) (body : String)
  | createIssue (title : String) (body : String)
deriving DecidableEq, Repr

/-- Tracker oracle: the responses the GitHub API would return to the three
calls the program can make in one run. `Except.error` embeds any
transport/auth/API failure (a `hubcaps::Error`, opaque here as a message
string). -/
structure TrackerResponses where
  list_result : Except String (List Issue)
  comment_result : Except String Unit
  create_result : Except String Unit

/-- Embeds `make_issue` against a tracker oracle, additionally recording
the trace of API calls issued, in order. Each Rust `?` becomes an early
return of the error; `iter(...).filter(...)` keeps the open issues whose
title contains `ISSUE_TITLE`; `first()` takes the head of the filtered
list in API order; the comment and the new issue both carry
`format_check_results` as body, and the new issue is titled
`ISSUE_TITLE`. -/
def make_issue (tracker : TrackerResponses)
    (checks : List (Check × Except Unit Unit)) :
    Except String Unit × List TrackerCall :=
  match tracker.list_result with
  | .error e => (.error e, [.listIssues])
  | .ok issues =>
    let existing_outage_issues := issues.filter
      (fun issue => strContains issue.title ISSUE_TITLE)
    match existing_outage_issues.head? with
    | some existing_issue =>
      let issue_number := parse_issue_number existing_issue.url
      match tracker.comment_result with
      | .error e =>
          (.error e,
            [.listIssues,
              .createComment issue_number (format_check_results checks)])
      | .ok _ =>
          (.ok (),
            [.listIssues,
              .createComment issue_number (format_check_results checks)])
    | none =>
      match tracker.create_result with
      | .error e =>
          (.error e,
            [.listIssues,
              .createIssue ISSUE_TITLE (format_check_results checks)])
      | .ok _ =>
          (.ok (),
            [.listIssues,
              .createIssue ISSUE_TITLE (format_check_results checks)])

/-- C6: the reconciler filters the listed open issues by a case-sensitive
substring match of the marker "Outage Report" against the title (first
conjunct: the filter predicate holds iff the title decomposes around the
marker); when no open issue matches, it calls create-issue with title
equal to the marker and body equal to the formatted report, and never
calls create-comment; when some issue matches, it calls create-comment
with the formatted report on the first match in returned order, and never
calls create-issue. -/
theorem make_issue_reconciles (tracker : TrackerResponses)
    (checks : List (Check × Except Unit Unit)) (issues : List Issue)
    (hlist : tracker.list_result = .ok issues) :
    (∀ issue : Issue, strContains issue.title ISSUE_TITLE = true ↔
      ∃ pre post : String, issue.title = pre ++ (ISSUE_TITLE ++ post)) ∧
    (issues.filter (fun issue => strContains issue.title ISSUE_TITLE) = [] →
      (make_issue tracker checks).2 =
        [.listIssues, .createIssue ISSUE_TITLE (format_check_results checks)]) ∧
    (∀ first rest_issues,
      issues.filter (fun issue => strContains issue.title ISSUE_TITLE) =
        first :: rest_issues →
      (make_issue tracker checks).2 =
        [.listIssues,
          .createComment (parse_issue_number first.url)
            (format_check_results checks)]) := by
  refine ⟨fun issue => strContains_iff issue.title ISSUE_TITLE, ?_, ?_⟩
  · intro hfilter
    cases hcr : tracker.create_result <;>
      simp [make_issue, hlist, hfilter, hcr]
  · intro first rest_issues hfilter
    cases hcm : tracker.comment_result <;>
      simp [make_issue, hlist, hfilter, hcm]

/-- Witness for C6 at a concrete tracker run: with one open issue whose
title contains the marker and one that does not, the reconciler comments
on the matching issue (number parsed from its URL) and creates nothing. -/
theorem make_issue_reconciles_witness :
    (make_issue
        { list_result := .ok
            [ { title := "unrelated", url := "https://x/issues/7" },
              { title := "Outage Report", url := "https://x/issues/12" } ]
          comment_result := .ok ()
          create_result := .ok () } []).2 =
      [.listIssues,
        .createComment
          (parse_issue_number "https://x/issues/12")
          (format_check_results [])] :=
  (make_issue_reconciles _ [] _ rfl).2.2
    { title := "Outage Report", url := "https://x/issues/12" } []
    (by decide)

/-- C8: every tracker error is fatal and the alternate action is never
attempted: a failed list call ends the run right after that call; a
failed comment call (some issue matches) surfaces the error with no
create-issue call in the trace; a failed create call (no issue matches)
surfaces the error with no create-comment call in the trace. -/
theorem make_issue_errors_fatal (tracker : TrackerResponses)
    (checks : List (Check × Except Unit Unit)) (e : String) :
    (tracker.list_result = .error e →
      make_issue tracker checks = (.error e, [.listIssues])) ∧
    (∀ issues first rest_issues,
      tracker.list_result = .ok issues →
      issues.filter (fun issue => strContains issue.title ISSUE_TITLE) =
        first :: rest_issues →
      tracker.comment_result = .error e →
      (make_issue tracker checks).1 = .error e ∧
        ∀ t b, TrackerCall.createIssue t b ∉ (make_issue tracker checks).2) ∧
    (∀ issues,
      tracker.list_result = .ok issues →
      issues.filter (fun issue => strContains issue.title ISSUE_TITLE) = [] →
      tracker.create_result = .error e →
      (make_issue tracker checks).1 = .error e ∧
        ∀ n b, TrackerCall.createComment n b ∉ (make_issue tracker checks).2) := by
  refine ⟨?_, ?_, ?_⟩
  · intro hlist
    simp [make_issue, hlist]
  · intro issues first rest_issues hlist hfilter hcm
    constructor
    · simp [make_issue, hlist, hfilter, hcm]
    · intro t b
      simp [make_issue, hlist, hfilter, hcm]
  · intro issues hlist hfilter hcr
    constructor
    · simp [make_issue, hlist, hfilter, hcr]
    · intro n b
      simp [make_issue, hlist, hfilter, hcr]

/-- Witness for C8 at a concrete tracker whose create-issue call fails
while no open issue matches: the error is the run's result and no comment
call appears in the trace. -/
theorem make_issue_errors_fatal_witness :
    (make_issue
        { list_result := .ok []
          comment_result := .ok ()
          create_result := .error "boom" } []).1 = .error "boom" ∧
      ∀ n b, TrackerCall.createComment n b ∉
        (make_issue
          { list_result := .ok []
            comment_result := .ok ()
            create_result := .error "boom" } []).2 :=
  (make_issue_errors_fatal _ [] "boom").2.2 [] rfl rfl rfl

/-- Embeds Rust's `Result::is_err` on the embedded `Result<(), ()>`. -/
def exceptIsErr {ε α : Type} : Except ε α → Bool
  | .error _ => true
  | .ok _ => false

/-- Embeds the `failed` binding in `main`:
`checks_with_results.iter().any(|(_check, result)| result.is_err())`. -/
def any_failed (checks_with_results : List (Check × Except Unit Unit)) : Bool :=
  checks_with_results.any (fun cr => exceptIsErr cr.2)

/-- Embeds the tail of `main` once `checks_with_results` is collected: if
any check failed, print the outage line and run `make_issue` (whose
`.unwrap()` aborts on error); otherwise print the all-OK line and never
touch the tracker. Returns the printed line and the reconciler
invocation, when there is one. -/
def main_step (tracker : TrackerResponses)
    (checks_with_results : List (Check × Except Unit Unit)) :
    String × Option (Except String Unit × List TrackerCall) :=
  let failed := any_failed checks_with_results
  if failed then
    ("Outage detected - creating GitHub issue",
      some (make_issue tracker checks_with_results))
  else
    ("All checks completed. All services OK.", none)

/-- C7: `any_failed` is true iff at least one result in the executed
sequence is `Err` (so it is false when all results pass), and `main`
invokes the reconciler exactly when `any_failed` is true. -/
theorem any_failed_gates_reconciler (tracker : TrackerResponses)
    (checks_with_results : List (Check × Except Unit Unit)) :
    (any_failed checks_with_results = true ↔
      ∃ cr ∈ checks_with_results, cr.2 = .error ()) ∧
    ((main_step tracker checks_with_results).2.isSome =
      any_failed checks_with_results) := by
  constructor
  · rw [any_failed, List.any_eq_true]
    constructor
    · rintro ⟨cr, hmem, herr⟩
      refine ⟨cr, hmem, ?_⟩
      cases h2 : cr.2 with
      | ok u => rw [h2] at herr; simp [exceptIsErr] at herr
      | error u => cases u; rfl
    · rintro ⟨cr, hmem, herr⟩
      exact ⟨cr, hmem, by simp [herr, exceptIsErr]⟩
  · rw [main_step]
    cases hf : any_failed checks_with_results <;> simp [hf]

end InfraTools
